import Mathlib

/-!
Shallow embedding of the 365skill security scanner
(`src/scripts/scan_skills.py` and `src/scripts/interactive_scan.py`).

Modelling conventions:
* Python regular-expression matching (`re.finditer` with `re.IGNORECASE`) is an
  external library primitive; it is modelled by an abstract `Matcher` parameter
  giving, for a pattern and a line, the number of non-overlapping matches.
  Every rule pattern string is kept verbatim (braces written as \x7b/\x7d and
  apostrophes as \x27 escapes, denoting the same characters).
* File system state is passed explicitly: a file's content is
  `Option (List String)` (`none` means the file cannot be read/opened; the
  `errors='ignore'` decoding in the source makes decode errors impossible).
* Console side-channel output that the claims mention (per-file read warnings,
  the target-not-found error) is modelled as an explicit list of strings
  returned alongside the result.
* Paths are lists of path segments; `str(p)` joins them with "/".
-/

/-- Scan level (`ScanLevel` enum in scan_skills.py). -/
inductive ScanLevel where
  | basic
  | deep
  | full
deriving DecidableEq, Repr

/-- Risk level (`RiskLevel` enum in scan_skills.py). -/
inductive RiskLevel where
  | critical
  | high
  | medium
  | low
  | info
deriving DecidableEq, Repr

/-- The `.value` string of a `RiskLevel` member, as in the Python enum. -/
def RiskLevel.value : RiskLevel → String
  | .critical => "critical"
  | .high => "high"
  | .medium => "medium"
  | .low => "low"
  | .info => "info"

/-- Risk finding (`RiskFinding` dataclass in scan_skills.py). -/
structure RiskFinding where
  skill_name : String
  file_path : String
  line_number : Nat
  risk_level : RiskLevel
  category : String
  description : String
  code_snippet : String
  recommendation : String
deriving DecidableEq, Repr

/-- Scan result (`ScanResult` dataclass in scan_skills.py). -/
structure ScanResult where
  skill_name : String
  is_safe : Bool
  findings : List RiskFinding := []
  total_files : Nat := 0
  scanned_files : Nat := 0
deriving DecidableEq, Repr

/-- Basic detection patterns (`self.basic_patterns` in `_init_patterns`):
an association list category -> list of (pattern, description). -/
def basic_patterns : List (String × List (String × String)) :=
  [ ("sensitive_api_keys",
      [ ("(?:api[_-]?key|apikey|api_key)[\"\\\x27]?\\s*[:=]\\s*[\"\\\x27]([a-zA-Z0-9_-]\x7b20,\x7d)[\"\\\x27]",
         "Possible API Key hardcoded"),
        ("(?:token|access_token|auth_token|bearer[_-]?token)[\"\\\x27]?\\s*[:=]\\s*[\"\\\x27]([a-zA-Z0-9_.-]\x7b20,\x7d)[\"\\\x27]",
         "Possible auth token hardcoded"),
        ("(?:password|passwd|pwd)[\"\\\x27]?\\s*[:=]\\s*[\"\\\x27]([^\"\\\x27\\s]\x7b8,\x7d)[\"\\\x27]",
         "Possible password hardcoded"),
        ("(?:secret|private[_-]?key|secret_key)[\"\\\x27]?\\s*[:=]\\s*[\"\\\x27]([a-zA-Z0-9/+=_-]\x7b16,\x7d)[\"\\\x27]",
         "Possible secret key hardcoded") ]),
    ("dangerous_commands",
      [ ("\\b(?:rm\\s+-rf|rmdir\\s+/s)\\b",
         "Dangerous file deletion command"),
        ("\\beval\\s*\\(",
         "Dynamic code execution with eval"),
        ("\\bexec\\s*\\(",
         "Dynamic code execution with exec"),
        ("\\bsubprocess\\.(?:call|run|Popen)\\s*\\(\\s*[\"\\\x27]?\\s*\\$",
         "Possible command injection"),
        ("\\bos\\.system\\s*\\(",
         "Command execution with os.system") ]),
    ("suspicious_network",
      [ ("(?:requests|urllib|fetch|axios)\\.(?:get|post|put|delete|patch)\\s*\\(\\s*[\"\\\x27]https?://(?:[^\"\\\x27]*?)(?:key|token|password|secret|credential)",
         "Network request with possible sensitive data"),
        ("[\"\\\x27]https?://(?:localhost|127\\.0\\.0\\.1|0\\.0\\.0\\.0):\\d+[\"\\\x27]",
         "Localhost port connection") ]) ]

/-- Deep detection patterns (`self.deep_patterns = {**self.basic_patterns, ...}`):
the basic entries, in order, followed by the four new categories. -/
def deep_patterns : List (String × List (String × String)) :=
  basic_patterns ++
  [ ("code_obfuscation",
      [ ("(?:\\\\x[0-9a-fA-F]\x7b2\x7d|\\\\u[0-9a-fA-F]\x7b4\x7d|\\\\[0-7]\x7b3\x7d)\x7b5,\x7d",
         "Possible code obfuscation (escape characters)"),
        ("chr\\s*\\(\\s*\\d+\\s*\\)\\s*\\)",
         "Possible character encoding obfuscation"),
        ("\\bbase64\\.(?:b64decode|decodebytes|standard_b64decode)\\s*\\(",
         "Base64 decode operation"),
        ("(?:exec|eval)\\s*\\(\\s*(?:base64\\.decode|chr\\(|__import__\\()",
         "Multi-layer obfuscated code execution") ]),
    ("suspicious_file_ops",
      [ ("\\bopen\\s*\\(\\s*[\"\\\x27]~/(?:\\.ssh|\\.gnupg|\\.aws)",
         "Accessing sensitive config directory"),
        ("\\bshutil\\.(?:copy|copytree|move|rmtree)\\s*\\(",
         "Bulk file operations"),
        ("\\b(?:sendmail|smtplib\\.SMTP)\\s*\\(",
         "Email sending functionality"),
        ("\\bpathlib\\.Path\\s*\\(\\s*[\"\\\x27]~/\\.?",
         "Accessing user home directory") ]),
    ("data_exfiltration",
      [ ("(?:requests|urllib)\\.(?:get|post)\\s*\\(\\s*[\"\\\x27]https?://.*?(?:exfil|log|track|telemetry|analytics|beacon)",
         "Possible data exfiltration request"),
        ("\\bsocket\\.(?:create_connection|connect)\\s*\\(",
         "Raw socket connection"),
        ("[\"\\\x27]https?://(?:[a-z0-9-]+\\.)?(?:pastebin|gist\\.github|discord|webhook|telegram)\\.",
         "Data possibly sent to external service") ]),
    ("shell_injection",
      [ ("\\bsubprocess\\.(?:call|run|Popen)\\s*\\(\\s*.*?\\$",
         "Possible shell variable injection"),
        ("\\bos\\.popen\\s*\\(",
         "Command execution with os.popen"),
        ("\\bcommands\\.getoutput\\s*\\(",
         "Command execution with commands.getoutput") ]) ]

/-- Full detection patterns (`self.full_patterns = {**self.deep_patterns, ...}`). -/
def full_patterns : List (String × List (String × String)) :=
  deep_patterns ++
  [ ("behavior_analysis",
      [ ("(?:while\\s+True|for\\s+\\w+\\s+in\\s+range\\(\\s*\\d\x7b6,\x7d",
         "Possible infinite loop or massive iteration"),
        ("\\btime\\.sleep\\s*\\(\\s*\\d\x7b3,\x7d",
         "Long sleep delay (possible delay attack)"),
        ("\\bthreading\\.(?:Thread|Process)\\s*\\(",
         "Multi-threading/process creation"),
        ("\\bmultiprocessing\\.(?:Process|Pool)\\s*\\(",
         "Multi-process creation") ]),
    ("environment_fingerprinting",
      [ ("\\b(?:os|platform)\\.(?:uname|system|release|version|machine)\\s*\\(",
         "System fingerprinting"),
        ("\\b(?:os\\.getenv|sys\\.version|platform\\.platform)\\s*\\(",
         "Environment info gathering") ]),
    ("persistence_hooks",
      [ ("~/(?:\\.bashrc|\\.zshrc|\\.profile|\\.bash_profile)",
         "Shell config file modification"),
        ("(?:crontab|systemd|launchd|plist)",
         "Cron job or service configuration") ]) ]

/-- Risk level by category (`get_risk_level` in scan_skills.py). -/
def get_risk_level (category : String) : RiskLevel :=
  let critical_categories := ["dangerous_commands", "shell_injection", "persistence_hooks"]
  let high_categories := ["sensitive_api_keys", "data_exfiltration", "code_obfuscation"]
  let medium_categories := ["suspicious_file_ops", "suspicious_network", "behavior_analysis"]
  if category ∈ critical_categories then RiskLevel.critical
  else if category ∈ high_categories then RiskLevel.high
  else if category ∈ medium_categories then RiskLevel.medium
  else RiskLevel.low

/-- Fix recommendation by category (`get_recommendation` in scan_skills.py). -/
def get_recommendation (category : String) : String :=
  let recommendations : List (String × String) :=
    [ ("sensitive_api_keys", "Use environment variables or config files for sensitive info"),
      ("dangerous_commands", "Remove dangerous commands or add strict validation"),
      ("suspicious_network", "Review network requests for legitimacy"),
      ("code_obfuscation", "Code obfuscation may hide malicious behavior, manual review needed"),
      ("suspicious_file_ops", "Review necessity and permissions of file operations"),
      ("data_exfiltration", "Possible data exfiltration detected, review network communications"),
      ("shell_injection", "Use parameterized commands instead of string concatenation"),
      ("behavior_analysis", "Review reasonableness of anomalous behavior"),
      ("environment_fingerprinting", "Confirm necessity of environment probing"),
      ("persistence_hooks", "Persistence mechanism detected, review needed") ]
  (recommendations.lookup category).getD "Manual review recommended"

/-- A path as a list of segments; `str(path)` joins them with "/". -/
abbrev PathSegs := List String

/-- String form of a path, as `str()` of a pathlib path. -/
def joinPath (p : PathSegs) : String := String.intercalate "/" p

/-- Python's `Path.relative_to(base)` for a path that lies below `base`. -/
def relativeTo (p base : PathSegs) : PathSegs := p.drop base.length

/-- Python's `str.strip()`: drop leading and trailing whitespace. -/
def pyStrip (s : String) : String :=
  ⟨((s.data.dropWhile Char.isWhitespace).reverse.dropWhile Char.isWhitespace).reverse⟩

/-- Snippet capture in `scan_file`: strip the line, and truncate to 100
characters plus "..." when longer than 100. -/
def truncateSnippet (line : String) : String :=
  let snippet := pyStrip line
  if snippet.length > 100 then (⟨snippet.data.take 100⟩ : String) ++ "..." else snippet

/-- Abstract model of `re.finditer(pattern, line, re.IGNORECASE)`: the number
of non-overlapping matches of `pattern` on `line`. -/
abbrev Matcher := String → String → Nat

/-- Scanner state built by `SkillSecurityScanner.__init__`. -/
structure SkillSecurityScanner where
  skills_dir : PathSegs
  scan_level : ScanLevel
  use_whitelist : Bool
  whitelist : List String
deriving DecidableEq, Repr

/-- Whitelist loading (`_load_whitelist`): empty when disabled, when the file
is missing, or when it cannot be parsed (all modelled by `none`). -/
def load_whitelist (use_whitelist : Bool) (whitelist_file : Option (List String)) :
    List String :=
  if !use_whitelist then []
  else
    match whitelist_file with
    | none => []
    | some names => names

/-- `SkillSecurityScanner.__init__`. -/
def mkScanner (skills_dir : PathSegs) (scan_level : ScanLevel) (use_whitelist : Bool)
    (whitelist_file : Option (List String)) : SkillSecurityScanner :=
  { skills_dir := skills_dir
    scan_level := scan_level
    use_whitelist := use_whitelist
    whitelist := load_whitelist use_whitelist whitelist_file }

/-- Scan a single file (`scan_file` in scan_skills.py).
`content` is `none` when the file cannot be opened/read (the `except` branch);
the second component is the warning side channel (the source's message also
interpolates the exception text, which is not modelled). -/
def scan_file (S : SkillSecurityScanner) (M : Matcher) (file_path : PathSegs)
    (content : Option (List String)) (skill_name : String) :
    List RiskFinding × List String :=
  match content with
  | none => ([], ["  Warning: Cannot read file " ++ joinPath file_path])
  | some lines =>
    let patterns :=
      if S.scan_level = ScanLevel.basic then basic_patterns
      else if S.scan_level = ScanLevel.deep then deep_patterns
      else full_patterns
    let findings := lines.enum.flatMap (fun le =>
      patterns.flatMap (fun cp =>
        cp.2.flatMap (fun pd =>
          List.replicate (M pd.1 le.2)
            { skill_name := skill_name
              file_path := joinPath (relativeTo file_path S.skills_dir)
              line_number := le.1 + 1
              risk_level := get_risk_level cp.1
              category := cp.1
              description := pd.2
              code_snippet := truncateSnippet le.2
              recommendation := get_recommendation cp.1 })))
    (findings, [])

/-- A file in the model file system: its full path (below the scanner's
`skills_dir`) and its content (`none` when unreadable). -/
structure FileEntry where
  path : PathSegs
  content : Option (List String)
deriving DecidableEq, Repr

/-- A skill directory: its name and the recursive file listing below it, in
file-system enumeration order. -/
structure SkillDir where
  name : String
  files : List FileEntry
deriving DecidableEq, Repr

/-- The fixed extension set of `scan_skill` (written as a list in source order;
the Python `set` iteration order is unspecified, which only permutes the
per-extension groups of the candidate list). -/
def extensions : List String :=
  [".py", ".js", ".ts", ".sh", ".bash", ".md", ".json", ".yml", ".yaml", ".txt"]

/-- Bool test that `small` is a suffix of `s` (structure-level model of the
suffix comparison done below). -/
def strEndsWith (small s : String) : Bool := small.data.isSuffixOf s.data

/-- Bool test that `small` is a prefix of `s`. -/
def strStartsWith (small s : String) : Bool := small.data.isPrefixOf s.data

/-- Whether `rglob('*' + ext)` matches a path: its final name component ends
with `ext`. -/
def hasExt (p : PathSegs) (ext : String) : Bool :=
  strEndsWith ext (p.getLast?.getD "")

/-- The candidate list built by `scan_skill` (`files_to_scan`): for each
extension, all files under the skill matching it, in enumeration order. -/
def files_to_scan (skill : SkillDir) : List FileEntry :=
  extensions.flatMap (fun ext => skill.files.filter (fun f => hasExt f.path ext))

/-- Scan a single skill (`scan_skill` in scan_skills.py). The second component
collects the warning side channel of the per-file scans. -/
def scan_skill (S : SkillSecurityScanner) (M : Matcher) (skill : SkillDir) :
    ScanResult × List String :=
  let skill_name := skill.name
  if skill_name = "365skill" then
    ({ skill_name := skill_name, is_safe := true }, [])
  else if skill_name ∈ S.whitelist then
    ({ skill_name := skill_name, is_safe := true }, [])
  else
    let fts := files_to_scan skill
    let acc := fts.foldl
      (fun acc f =>
        let res := scan_file S M f.path f.content skill_name
        (acc.1 ++ res.1, acc.2.1 + (if res.1.isEmpty then 0 else 1), acc.2.2 ++ res.2))
      (([] : List RiskFinding), (0 : Nat), ([] : List String))
    ({ skill_name := skill_name
       is_safe := acc.1.isEmpty
       findings := acc.1
       total_files := fts.length
       scanned_files := acc.2.1 }, acc.2.2)

/-- A direct child of the skills directory, as seen by `iterdir()`: its name,
whether it is a directory, and the recursive file listing found below it by
`rglob` (empty when it is not a directory). -/
structure DirEntry where
  name : String
  isDir : Bool
  files : List FileEntry
deriving DecidableEq, Repr

/-- Scan all skills or one target skill (`scan_all_skills` in scan_skills.py).
`entries` are the direct children of `skills_dir`; the second component is the
side channel (the target-not-found error message and per-file warnings). -/
def scan_all_skills (S : SkillSecurityScanner) (M : Matcher) (entries : List DirEntry)
    (target_skill : Option String) : List ScanResult × List String :=
  match target_skill with
  | some t =>
    match entries.find? (fun d => d.name == t) with
    | none => ([], ["Error: Skill not found: " ++ t])
    | some d =>
      let r := scan_skill S M ⟨d.name, d.files⟩
      ([r.1], r.2)
  | none =>
    let skill_paths := entries.filter (fun d => d.isDir && !(strStartsWith "." d.name))
    let rs := skill_paths.map (fun d => scan_skill S M ⟨d.name, d.files⟩)
    (rs.map Prod.fst, rs.flatMap Prod.snd)

/-- The highest-risk computation of `print_results` (lines 350-361): a
sequential if/elif chain over the findings, with an early `break` on a
critical finding, threading the `highest_risk` accumulator. -/
def highestRiskChain : RiskLevel → List RiskFinding → RiskLevel
  | highest, [] => highest
  | highest, f :: rest =>
    if f.risk_level.value = "critical" then RiskLevel.critical
    else if f.risk_level.value = "high" ∧ highest.value ∈ ["info", "low", "medium"] then
      highestRiskChain RiskLevel.high rest
    else if f.risk_level.value = "medium" ∧ highest.value ∈ ["info", "low"] then
      highestRiskChain RiskLevel.medium rest
    else if highest.value = "info" then
      highestRiskChain RiskLevel.low rest
    else
      highestRiskChain highest rest

/-- The `highest_risk` value `print_results` computes for one result
(accumulator starts at `RiskLevel.INFO`). -/
def print_results_highest (findings : List RiskFinding) : RiskLevel :=
  highestRiskChain RiskLevel.info findings

/-- The numeric risk priority table of `InteractiveScanner.run`
(interactive_scan.py lines 107-113). -/
def risk_priority : RiskLevel → Nat
  | .critical => 4
  | .high => 3
  | .medium => 2
  | .low => 1
  | .info => 0

/-- One step of the highest-risk loop of `InteractiveScanner.run` (lines
114-115): keep the finding's level when its priority strictly exceeds the
accumulator's. -/
def interactive_step (highest : RiskLevel) (f : RiskFinding) : RiskLevel :=
  if risk_priority f.risk_level > risk_priority highest then f.risk_level else highest

/-- The highest-risk computation of `InteractiveScanner.run` (lines 105-115):
fold of `interactive_step` starting from `RiskLevel.INFO`. -/
def interactive_highest_risk (findings : List RiskFinding) : RiskLevel :=
  findings.foldl interactive_step RiskLevel.info

/-- The four severity groups of `print_results`. -/
inductive RiskGroup where
  | critical
  | high
  | medium
  | low
deriving DecidableEq, Repr

/-- Group placement of one result in `print_results` (lines 346-371): safe
results go to no group; otherwise the group is chosen by the if/elif chain on
the computed highest risk. -/
def classify_result (r : ScanResult) : Option RiskGroup :=
  if r.is_safe then none
  else
    let highest := print_results_highest r.findings
    if highest = RiskLevel.critical then some RiskGroup.critical
    else if highest = RiskLevel.high then some RiskGroup.high
    else if highest = RiskLevel.medium then some RiskGroup.medium
    else some RiskGroup.low

/-- The severity group named by a risk level (CRITICAL, HIGH and MEDIUM map to
their groups, anything else to the LOW group). -/
def groupOfLevel : RiskLevel → RiskGroup
  | .critical => RiskGroup.critical
  | .high => RiskGroup.high
  | .medium => RiskGroup.medium
  | _ => RiskGroup.low

/-- The category -> risk level mapping in effect at a given scan depth: the
source's `get_risk_level` takes no depth parameter, so the mapping used while
scanning at any depth is the same static function. -/
def riskLevelAt (_level : ScanLevel) (category : String) : RiskLevel :=
  get_risk_level category

/-! Helper lemmas. -/

lemma foldl_step_critical (findings : List RiskFinding) :
    findings.foldl interactive_step RiskLevel.critical = RiskLevel.critical := by
  induction findings with
  | nil => rfl
  | cons f rest ih =>
    have hstep : interactive_step RiskLevel.critical f = RiskLevel.critical := by
      unfold interactive_step; cases f.risk_level <;> simp [risk_priority]
    simp [List.foldl_cons, hstep, ih]

lemma highestRiskChain_eq_foldl (findings : List RiskFinding) : ∀ (h : RiskLevel),
    h ≠ RiskLevel.critical → (∀ f ∈ findings, f.risk_level ≠ RiskLevel.info) →
    highestRiskChain h findings = findings.foldl interactive_step h := by
  induction findings with
  | nil => intro h _ _; rfl
  | cons f rest ih =>
    intro h hh hi
    have hif := hi f (List.mem_cons_self _ _)
    have hirest : ∀ g ∈ rest, g.risk_level ≠ RiskLevel.info :=
      fun g hg => hi g (List.mem_cons_of_mem _ hg)
    rw [List.foldl_cons]
    cases hf : f.risk_level <;> cases h <;>
      simp_all [highestRiskChain, RiskLevel.value, risk_priority, interactive_step,
        foldl_step_critical, ih]

lemma interactive_step_rightComm (h : RiskLevel) (x y : RiskFinding) :
    interactive_step (interactive_step h x) y = interactive_step (interactive_step h y) x := by
  unfold interactive_step
  cases h <;> cases hx : x.risk_level <;> cases hy : y.risk_level <;>
    simp [risk_priority, hx, hy]

lemma interactive_highest_risk_perm {l1 l2 : List RiskFinding} (p : l1.Perm l2) :
    interactive_highest_risk l1 = interactive_highest_risk l2 := by
  unfold interactive_highest_risk
  exact @List.Perm.foldl_eq _ _ interactive_step l1 l2 ⟨interactive_step_rightComm⟩ p
    RiskLevel.info

lemma scan_skill_foldl (S : SkillSecurityScanner) (M : Matcher) (name : String) :
    ∀ (files : List FileEntry) (fs0 : List RiskFinding) (n0 : Nat) (ws0 : List String),
    files.foldl
      (fun acc f =>
        let res := scan_file S M f.path f.content name
        (acc.1 ++ res.1, acc.2.1 + (if res.1.isEmpty then 0 else 1), acc.2.2 ++ res.2))
      (fs0, n0, ws0)
    = (fs0 ++ files.flatMap (fun f => (scan_file S M f.path f.content name).1),
       n0 + files.countP (fun f => !(scan_file S M f.path f.content name).1.isEmpty),
       ws0 ++ files.flatMap (fun f => (scan_file S M f.path f.content name).2)) := by
  intro files
  induction files with
  | nil => intro fs0 n0 ws0; simp
  | cons f rest ih =>
    intro fs0 n0 ws0
    simp only [List.foldl_cons, ih, List.flatMap_cons, List.countP_cons, List.append_assoc]
    refine Prod.ext ?_ (Prod.ext ?_ ?_)
    · rfl
    · show n0 + (if (scan_file S M f.path f.content name).1.isEmpty then 0 else 1)
        + List.countP _ rest = _
      cases hres : (scan_file S M f.path f.content name).1.isEmpty <;> simp [hres] <;> omega
    · rfl

lemma lookup_append_of_isSome {β : Type} (k : String) (l1 l2 : List (String × β))
    (h : (List.lookup k l1).isSome) : List.lookup k (l1 ++ l2) = List.lookup k l1 := by
  induction l1 with
  | nil => simp [List.lookup] at h
  | cons a t ih =>
    obtain ⟨k1, v1⟩ := a
    rw [List.cons_append]
    simp only [List.lookup] at h ⊢
    cases hk : (k == k1) with
    | false =>
      simp_all
      obtain ⟨x, hx⟩ := h
      exact ih x hx
    | true => simp_all

lemma enum_getD (l : List String) (i : Nat) (a d : String) (h : (i, a) ∈ l.enum) :
    l.getD i d = a := by
  have h2 := List.mem_enum_iff_getElem?.1 h
  simp only at h2
  rw [List.getD_eq_getElem?_getD, h2, Option.getD_some]

lemma ext_pair_suffix : ∀ e1 ∈ extensions, ∀ e2 ∈ extensions,
    e1.data <:+ e2.data → e1 = e2 := by decide

lemma ext_match_unique (name : String) : ∀ e1 ∈ extensions, ∀ e2 ∈ extensions,
    strEndsWith e1 name = true → strEndsWith e2 name = true → e1 = e2 := by
  intro e1 h1 e2 h2 hs1 hs2
  have s1 : e1.data <:+ name.data := List.isSuffixOf_iff_suffix.1 hs1
  have s2 : e2.data <:+ name.data := List.isSuffixOf_iff_suffix.1 hs2
  rcases List.suffix_or_suffix_of_suffix s1 s2 with h | h
  · exact ext_pair_suffix e1 h1 e2 h2 h
  · exact (ext_pair_suffix e2 h2 e1 h1 h).symm

lemma countP_eq_ite_of_unique {p : String → Bool} :
    ∀ (E : List String), E.Nodup → (∀ e1 ∈ E, ∀ e2 ∈ E, p e1 → p e2 → e1 = e2) →
    E.countP p = if E.any p then 1 else 0 := by
  intro E
  induction E with
  | nil => intro _ _; simp
  | cons e E ih =>
    intro nd uniq
    have hnd := List.nodup_cons.1 nd
    rw [List.countP_cons]
    cases hp : p e with
    | true =>
      have hE : E.countP p = 0 := by
        rw [List.countP_eq_zero]
        intro a ha hpa
        exact hnd.1 (uniq a (List.mem_cons_of_mem _ ha) e (List.mem_cons_self _ _) hpa hp ▸ ha)
      simp [hE, List.any_cons, hp]
    | false =>
      have := ih hnd.2
        (fun a ha b hb => uniq a (List.mem_cons_of_mem _ ha) b (List.mem_cons_of_mem _ hb))
      simp [this, List.any_cons, hp]

lemma countP_extensions (name : String) :
    extensions.countP (fun e => strEndsWith e name)
      = if extensions.any (fun e => strEndsWith e name) then 1 else 0 :=
  countP_eq_ite_of_unique extensions (by decide) (ext_match_unique name)

lemma length_flatMap_filter_cons (E : List String) (f : FileEntry) (fs : List FileEntry) :
    (E.flatMap (fun ext => (f :: fs).filter (fun g => hasExt g.path ext))).length
      = (E.flatMap (fun ext => fs.filter (fun g => hasExt g.path ext))).length
        + E.countP (fun ext => hasExt f.path ext) := by
  induction E with
  | nil => rfl
  | cons e E ih =>
    rw [List.flatMap_cons, List.flatMap_cons, List.length_append, List.length_append,
      List.countP_cons, ih, ← List.countP_eq_length_filter, ← List.countP_eq_length_filter,
      List.countP_cons]
    omega

lemma files_to_scan_length : ∀ (skfiles : List FileEntry),
    (extensions.flatMap (fun ext => skfiles.filter (fun f => hasExt f.path ext))).length
      = skfiles.countP (fun f => extensions.any (fun e => hasExt f.path e))
  | [] => rfl
  | f :: fs => by
    rw [length_flatMap_filter_cons, files_to_scan_length fs, List.countP_cons]
    have heq : extensions.countP (fun ext => hasExt f.path ext)
        = if extensions.any (fun e => hasExt f.path e) then 1 else 0 := by
      unfold hasExt
      exact countP_extensions _
    rw [heq]

lemma scan_file_mem_spec (S : SkillSecurityScanner) (M : Matcher) (p : PathSegs)
    (lines : List String) (name : String) :
    ∀ f ∈ (scan_file S M p (some lines) name).1,
      f.file_path = joinPath (relativeTo p S.skills_dir)
      ∧ ∃ le ∈ lines.enum, f.line_number = le.1 + 1 ∧ f.code_snippet = truncateSnippet le.2 := by
  intro f hf
  simp only [scan_file] at hf
  rw [List.mem_flatMap] at hf
  obtain ⟨le, hle, hf⟩ := hf
  rw [List.mem_flatMap] at hf
  obtain ⟨cp, _, hf⟩ := hf
  rw [List.mem_flatMap] at hf
  obtain ⟨pd, _, hf⟩ := hf
  have := List.eq_of_mem_replicate hf
  subst this
  exact ⟨rfl, le, hle, rfl, rfl⟩

lemma classify_branch_eq_group (hl : RiskLevel) :
    (if hl = RiskLevel.critical then some RiskGroup.critical
     else if hl = RiskLevel.high then some RiskGroup.high
     else if hl = RiskLevel.medium then some RiskGroup.medium
     else some RiskGroup.low) = some (groupOfLevel hl) := by
  cases hl <;> rfl

/-! Concrete sample data used by the witness theorems. -/

/-- A matcher on which every pattern matches every line exactly once. -/
def constMatcher : Matcher := fun _ _ => 1

/-- A scanner rooted at "skills" at BASIC depth with the whitelist disabled. -/
def sampleScanner : SkillSecurityScanner := mkScanner ["skills"] ScanLevel.basic false none

/-- The first finding `scan_file sampleScanner constMatcher` produces on the
one-line file "skills/myskill/a.py" containing "eval(x)". -/
def sampleFinding : RiskFinding :=
  { skill_name := "myskill"
    file_path := "myskill/a.py"
    line_number := 1
    risk_level := RiskLevel.high
    category := "sensitive_api_keys"
    description := "Possible API Key hardcoded"
    code_snippet := "eval(x)"
    recommendation := "Use environment variables or config files for sensitive info" }

/-- A MEDIUM-level finding. -/
def medFinding : RiskFinding :=
  { skill_name := "sk"
    file_path := "sk/a.py"
    line_number := 1
    risk_level := RiskLevel.medium
    category := "suspicious_network"
    description := "Localhost port connection"
    code_snippet := "x"
    recommendation := "Review network requests for legitimacy" }

/-- A LOW-level finding. -/
def lowFinding : RiskFinding :=
  { skill_name := "sk"
    file_path := "sk/b.py"
    line_number := 2
    risk_level := RiskLevel.low
    category := "environment_fingerprinting"
    description := "Environment info gathering"
    code_snippet := "y"
    recommendation := "Confirm necessity of environment probing" }

/-- A result whose findings carry levels LOW and MEDIUM, in that order. -/
def mixedResult : ScanResult :=
  { skill_name := "sk"
    is_safe := false
    findings := [lowFinding, medFinding]
    total_files := 2
    scanned_files := 2 }

/-- A line of 101 identical non-whitespace characters. -/
def longLine : String := ⟨List.replicate 101 'a'⟩

/-! Claim theorems. -/

/-- C1 (counterexample): `scan_file` does not store the path relative to the
skill package root. On the file "skills/myskill/a.py" of skill "myskill"
(scanned from skills root "skills"), the produced finding carries
file_path "myskill/a.py" — the path relative to the skills root, retaining the
skill directory name — and not "a.py", the path relative to the skill root. -/
theorem file_path_keeps_skill_dir_cex :
    ((scan_file sampleScanner constMatcher ["skills", "myskill", "a.py"]
        (some ["eval(x)"]) "myskill").1.map (fun f => f.file_path)).head?
      = some "myskill/a.py"
    ∧ "myskill/a.py" ≠ "a.py" := by
  constructor
  · decide
  · decide

/-- C1 (amended): for every finding produced by `scan_file`, the file_path
field equals the triggering file's path relative to the skills root directory
(`skills_dir`), so it retains the skill directory name and drops only the
skills-root prefix. -/
theorem scan_file_file_path_relative_to_skills_root (S : SkillSecurityScanner)
    (M : Matcher) (skillSeg : String) (rest : PathSegs) (content : Option (List String))
    (name : String) :
    ∀ f ∈ (scan_file S M (S.skills_dir ++ skillSeg :: rest) content name).1,
      f.file_path = joinPath (skillSeg :: rest) := by
  intro f hf
  match content with
  | none => simp [scan_file] at hf
  | some lines =>
    have h := (scan_file_mem_spec S M _ lines name f hf).1
    rw [h]
    unfold relativeTo
    rw [List.drop_left]

/-- C1 (witness): the amended theorem applied to the concrete scan of
"skills/myskill/a.py". -/
theorem scan_file_file_path_witness :
    sampleFinding.file_path = joinPath ["myskill", "a.py"] :=
  scan_file_file_path_relative_to_skills_root sampleScanner constMatcher
    "myskill" ["a.py"] (some ["eval(x)"]) "myskill" sampleFinding (by decide)

/-- C2: for every `ScanResult` returned by `scan_skill` — whether the skill is
the tool's own package, whitelisted, or actually scanned — `is_safe` is true
if and only if its findings sequence is empty. -/
theorem scan_skill_is_safe_iff_no_findings (S : SkillSecurityScanner) (M : Matcher)
    (skill : SkillDir) :
    ((scan_skill S M skill).1.is_safe = true) ↔ (scan_skill S M skill).1.findings = [] := by
  unfold scan_skill
  dsimp only
  split
  · simp
  · split
    · simp
    · simp [List.isEmpty_iff]

/-- C3: under the `ScanResult` invariant (`is_safe` iff findings empty) and
with finding levels produced by `get_risk_level` (never INFO), a result with
empty findings is placed in no severity group, and a result with at least one
finding is placed in exactly the group of the maximum risk level among its
findings, independently of the findings' order. The witness instantiates the
{MEDIUM, LOW} case, which lands in the MEDIUM group. -/
theorem classify_result_max_severity (r : ScanResult)
    (hs : r.is_safe = r.findings.isEmpty)
    (hi : ∀ f ∈ r.findings, f.risk_level ≠ RiskLevel.info) :
    (r.findings = [] → classify_result r = none)
    ∧ (r.findings ≠ [] →
        classify_result r = some (groupOfLevel (interactive_highest_risk r.findings)))
    ∧ (∀ l, r.findings.Perm l →
        classify_result { r with findings := l } = classify_result r) := by
  refine ⟨?_, ?_, ?_⟩
  · intro hempty
    unfold classify_result
    rw [if_pos (by simp [hs, hempty])]
  · intro hne
    unfold classify_result
    rw [if_neg (by simp [hs, List.isEmpty_iff, hne])]
    unfold print_results_highest
    rw [highestRiskChain_eq_foldl r.findings RiskLevel.info (by decide) hi]
    exact classify_branch_eq_group _
  · intro l hperm
    have hl : ∀ f ∈ l, f.risk_level ≠ RiskLevel.info :=
      fun f hf => hi f (hperm.mem_iff.2 hf)
    unfold classify_result
    by_cases hsafe : r.is_safe
    · rw [if_pos hsafe, if_pos hsafe]
    · rw [if_neg (by simpa using hsafe), if_neg hsafe]
      unfold print_results_highest
      rw [highestRiskChain_eq_foldl l RiskLevel.info (by decide) hl,
        highestRiskChain_eq_foldl r.findings RiskLevel.info (by decide) hi]
      rw [show (List.foldl interactive_step RiskLevel.info l : RiskLevel)
            = List.foldl interactive_step RiskLevel.info r.findings from
          interactive_highest_risk_perm hperm.symm]

/-- C3 (witness): a result with findings at levels {LOW, MEDIUM} is classified
into the group of its maximum level (the MEDIUM group). -/
theorem classify_result_max_severity_witness :
    classify_result mixedResult
      = some (groupOfLevel (interactive_highest_risk mixedResult.findings)) :=
  (classify_result_max_severity mixedResult (by decide) (by decide)).2.1 (by decide)

/-- C4: the category set of the BASIC catalog is a strict subset of that of
DEEP, which is a strict subset of that of FULL; a shared category keeps an
identical rule list across catalogs that contain it; and the category-to-risk
mapping does not depend on the active depth. -/
theorem pattern_catalog_monotone :
    ((∀ c ∈ basic_patterns.map Prod.fst, c ∈ deep_patterns.map Prod.fst)
      ∧ ¬(∀ c ∈ deep_patterns.map Prod.fst, c ∈ basic_patterns.map Prod.fst))
    ∧ ((∀ c ∈ deep_patterns.map Prod.fst, c ∈ full_patterns.map Prod.fst)
      ∧ ¬(∀ c ∈ full_patterns.map Prod.fst, c ∈ deep_patterns.map Prod.fst))
    ∧ (∀ c : String, (List.lookup c basic_patterns).isSome →
        List.lookup c deep_patterns = List.lookup c basic_patterns)
    ∧ (∀ c : String, (List.lookup c deep_patterns).isSome →
        List.lookup c full_patterns = List.lookup c deep_patterns)
    ∧ (∀ (l1 l2 : ScanLevel) (c : String), riskLevelAt l1 c = riskLevelAt l2 c) := by
  refine ⟨⟨by decide, by decide⟩, ⟨by decide, by decide⟩, ?_, ?_, fun l1 l2 c => rfl⟩
  · intro c h
    exact lookup_append_of_isSome c basic_patterns _ h
  · intro c h
    exact lookup_append_of_isSome c deep_patterns _ h

/-- C4 (witness): the shared category "dangerous_commands" keeps its BASIC
rule list in the DEEP catalog, and its risk level is the same at BASIC and
FULL depth. -/
theorem pattern_catalog_monotone_witness :
    List.lookup "dangerous_commands" deep_patterns
      = List.lookup "dangerous_commands" basic_patterns
    ∧ riskLevelAt ScanLevel.basic "dangerous_commands"
      = riskLevelAt ScanLevel.full "dangerous_commands" :=
  ⟨pattern_catalog_monotone.2.2.1 "dangerous_commands" (by decide),
   pattern_catalog_monotone.2.2.2.2 ScanLevel.basic ScanLevel.full "dangerous_commands"⟩

/-- C5: a skill whose name is in the whitelist (whitelist use enabled) is
reported safe with zero findings and zero counted files, and the result does
not depend on the skill's file listing or on the matcher — no file
enumeration or file reads take place. -/
theorem whitelist_skip_no_scan (skills_dir : PathSegs) (lvl : ScanLevel)
    (wl : List String) (M : Matcher) (skill : SkillDir) (h : skill.name ∈ wl) :
    (scan_skill (mkScanner skills_dir lvl true (some wl)) M skill).1
      = { skill_name := skill.name, is_safe := true, findings := [],
          total_files := 0, scanned_files := 0 }
    ∧ (∀ (files' : List FileEntry) (M' : Matcher),
        scan_skill (mkScanner skills_dir lvl true (some wl)) M' ⟨skill.name, files'⟩
          = scan_skill (mkScanner skills_dir lvl true (some wl)) M skill) := by
  have hwl : skill.name ∈ (mkScanner skills_dir lvl true (some wl)).whitelist := by
    simpa [mkScanner, load_whitelist] using h
  constructor
  · unfold scan_skill
    by_cases h365 : skill.name = "365skill" <;> simp [h365, hwl]
  · intro files' M'
    unfold scan_skill
    by_cases h365 : skill.name = "365skill" <;> simp [h365, hwl]

/-- C5 (witness): the whitelisted skill "trusted" is skipped even though its
directory contains a file full of matches. -/
theorem whitelist_skip_no_scan_witness :
    (scan_skill (mkScanner ["skills"] ScanLevel.deep true (some ["trusted"])) constMatcher
        ⟨"trusted", [⟨["skills", "trusted", "a.py"], some ["eval(x)"]⟩]⟩).1
      = { skill_name := "trusted", is_safe := true, findings := [],
          total_files := 0, scanned_files := 0 } :=
  (whitelist_skip_no_scan ["skills"] ScanLevel.deep ["trusted"] constMatcher
    ⟨"trusted", [⟨["skills", "trusted", "a.py"], some ["eval(x)"]⟩]⟩ (by decide)).1

/-- C6: an unreadable file makes `scan_file` return an empty finding sequence
(never a partial one, since reading precedes matching) together with a warning
on the side channel; and the enclosing `scan_skill` aggregates per-file
findings and warnings over all candidate files, so the files after an
unreadable one are still scanned. -/
theorem unreadable_file_skipped (S : SkillSecurityScanner) (M : Matcher) (skill : SkillDir)
    (h365 : skill.name ≠ "365skill") (hwl : skill.name ∉ S.whitelist) :
    (∀ (p : PathSegs) (name : String),
        scan_file S M p none name = ([], ["  Warning: Cannot read file " ++ joinPath p]))
    ∧ (scan_skill S M skill).1.findings
        = (files_to_scan skill).flatMap
            (fun f => (scan_file S M f.path f.content skill.name).1)
    ∧ (scan_skill S M skill).2
        = (files_to_scan skill).flatMap
            (fun f => (scan_file S M f.path f.content skill.name).2) := by
  refine ⟨fun p name => rfl, ?_, ?_⟩ <;>
  · unfold scan_skill
    rw [if_neg h365, if_neg hwl]
    simp only [scan_skill_foldl]
    simp

/-- C6 (witness): scanning the unreadable file "skills/sk/bad.py" yields no
findings and one warning. -/
theorem unreadable_file_skipped_witness :
    scan_file sampleScanner constMatcher ["skills", "sk", "bad.py"] none "sk"
      = ([], ["  Warning: Cannot read file " ++ joinPath ["skills", "sk", "bad.py"]]) :=
  (unreadable_file_skipped sampleScanner constMatcher ⟨"sk", []⟩
    (by decide) (by decide)).1 ["skills", "sk", "bad.py"] "sk"

/-- C7: for a scanned (non-excluded) skill, total_files equals the number of
files under the skill whose extension lies in the fixed recognized set (each
file counted once), scanned_files equals the number of candidates whose scan
produced at least one finding, and a skill with no recognized files yields
total_files = 0, scanned_files = 0 and is_safe = true. -/
theorem file_counts_spec (S : SkillSecurityScanner) (M : Matcher) (skill : SkillDir)
    (h365 : skill.name ≠ "365skill") (hwl : skill.name ∉ S.whitelist) :
    (scan_skill S M skill).1.total_files
      = (skill.files.filter (fun f => extensions.any (fun e => hasExt f.path e))).length
    ∧ (scan_skill S M skill).1.scanned_files
      = ((files_to_scan skill).filter
          (fun f => !(scan_file S M f.path f.content skill.name).1.isEmpty)).length
    ∧ (files_to_scan skill = [] →
        (scan_skill S M skill).1.total_files = 0
        ∧ (scan_skill S M skill).1.scanned_files = 0
        ∧ (scan_skill S M skill).1.is_safe = true) := by
  refine ⟨?_, ?_, ?_⟩
  · unfold scan_skill
    rw [if_neg h365, if_neg hwl]
    show (files_to_scan skill).length = _
    rw [← List.countP_eq_length_filter]
    exact files_to_scan_length skill.files
  · unfold scan_skill
    rw [if_neg h365, if_neg hwl]
    simp only [scan_skill_foldl]
    rw [← List.countP_eq_length_filter]
    simp
  · intro hempty
    unfold scan_skill
    rw [if_neg h365, if_neg hwl]
    simp [hempty]

/-- C7 (witness): a skill whose only file has no recognized extension yields
zero counted files and a safe result. -/
theorem file_counts_spec_witness :
    (scan_skill sampleScanner constMatcher
        ⟨"sk", [⟨["skills", "sk", "noext"], some ["eval(x)"]⟩]⟩).1.total_files = 0
    ∧ (scan_skill sampleScanner constMatcher
        ⟨"sk", [⟨["skills", "sk", "noext"], some ["eval(x)"]⟩]⟩).1.scanned_files = 0
    ∧ (scan_skill sampleScanner constMatcher
        ⟨"sk", [⟨["skills", "sk", "noext"], some ["eval(x)"]⟩]⟩).1.is_safe = true :=
  (file_counts_spec sampleScanner constMatcher
    ⟨"sk", [⟨["skills", "sk", "noext"], some ["eval(x)"]⟩]⟩
    (by decide) (by decide)).2.2 (by decide)

/-- C8: every finding's code_snippet is the stripped triggering line when that
has at most 100 characters, and otherwise exactly its first 100 characters
followed by "...", i.e. exactly 103 characters. -/
theorem snippet_truncation_spec (S : SkillSecurityScanner) (M : Matcher) (p : PathSegs)
    (lines : List String) (name : String) :
    (∀ f ∈ (scan_file S M p (some lines) name).1,
        f.code_snippet = truncateSnippet (lines.getD (f.line_number - 1) ""))
    ∧ (∀ line : String, (pyStrip line).length ≤ 100 → truncateSnippet line = pyStrip line)
    ∧ (∀ line : String, 100 < (pyStrip line).length →
        truncateSnippet line = (⟨(pyStrip line).data.take 100⟩ : String) ++ "..."
        ∧ (truncateSnippet line).length = 103) := by
  refine ⟨?_, ?_, ?_⟩
  · intro f hf
    obtain ⟨-, le, hle, hn, hs⟩ := scan_file_mem_spec S M p lines name f hf
    rw [hn, hs, Nat.add_sub_cancel]
    congr 1
    exact (enum_getD lines le.1 le.2 "" hle).symm
  · intro line hline
    unfold truncateSnippet
    rw [if_neg (by omega)]
  · intro line hline
    have heq : truncateSnippet line = (⟨(pyStrip line).data.take 100⟩ : String) ++ "..." := by
      unfold truncateSnippet
      rw [if_pos (by omega)]
    refine ⟨heq, ?_⟩
    rw [heq, String.length_append]
    have hdata : (pyStrip line).data.length = (pyStrip line).length := rfl
    have h100 : ((⟨(pyStrip line).data.take 100⟩ : String)).length = 100 := by
      show ((pyStrip line).data.take 100).length = 100
      rw [List.length_take]
      omega
    rw [h100]
    decide

/-- C8 (witness): the concrete finding on line "eval(x)" carries the stripped
line as snippet, and a 101-character line truncates to a 103-character
snippet. -/
theorem snippet_truncation_spec_witness :
    sampleFinding.code_snippet
      = truncateSnippet (["eval(x)"].getD (sampleFinding.line_number - 1) "")
    ∧ (truncateSnippet longLine).length = 103 :=
  ⟨(snippet_truncation_spec sampleScanner constMatcher ["skills", "myskill", "a.py"]
      ["eval(x)"] "myskill").1 sampleFinding (by decide),
   ((snippet_truncation_spec sampleScanner constMatcher [] [] "").2.2 longLine
      (by decide)).2⟩

/-- C9: on findings whose levels are all among CRITICAL/HIGH/MEDIUM/LOW (as
`get_risk_level` guarantees), the sequential elif chain of
`SkillSecurityScanner.print_results` computes the same highest risk as the
numeric priority maximum of `InteractiveScanner.run`, and the chain's value is
invariant under reordering of the findings. -/
theorem highest_risk_chain_eq_priority_max (findings : List RiskFinding)
    (h : ∀ f ∈ findings, f.risk_level ≠ RiskLevel.info) :
    print_results_highest findings = interactive_highest_risk findings
    ∧ (∀ l, findings.Perm l → print_results_highest l = print_results_highest findings) := by
  constructor
  · exact highestRiskChain_eq_foldl findings RiskLevel.info (by decide) h
  · intro l hperm
    have hl : ∀ f ∈ l, f.risk_level ≠ RiskLevel.info :=
      fun f hf => h f (hperm.mem_iff.2 hf)
    calc print_results_highest l
        = interactive_highest_risk l :=
          highestRiskChain_eq_foldl l RiskLevel.info (by decide) hl
      _ = interactive_highest_risk findings := interactive_highest_risk_perm hperm.symm
      _ = print_results_highest findings :=
          (highestRiskChain_eq_foldl findings RiskLevel.info (by decide) h).symm

/-- C9 (witness): both highest-risk computations agree on the concrete finding
list [LOW, MEDIUM]. -/
theorem highest_risk_chain_eq_priority_max_witness :
    print_results_highest [lowFinding, medFinding]
      = interactive_highest_risk [lowFinding, medFinding] :=
  (highest_risk_chain_eq_priority_max [lowFinding, medFinding] (by decide)).1

/-- C10: in target mode `scan_all_skills` scans the entry named by the target
whenever it exists, with no hidden-name or is-directory condition; the two
filters are applied only when enumerating all skills in no-target mode. -/
theorem scan_all_skills_target_mode (S : SkillSecurityScanner) (M : Matcher)
    (entries : List DirEntry) :
    (∀ (t : String) (d : DirEntry), entries.find? (fun e => e.name == t) = some d →
        (scan_all_skills S M entries (some t)).1 = [(scan_skill S M ⟨d.name, d.files⟩).1])
    ∧ (scan_all_skills S M entries none).1
        = (entries.filter (fun d => d.isDir && !(strStartsWith "." d.name))).map
            (fun d => (scan_skill S M ⟨d.name, d.files⟩).1) := by
  constructor
  · intro t d hd
    unfold scan_all_skills
    dsimp only
    rw [hd]
  · unfold scan_all_skills
    simp [List.map_map]

/-- C10 (witness): a hidden, non-directory entry named ".hidden" is scanned in
target mode. -/
theorem scan_all_skills_target_mode_witness :
    (scan_all_skills sampleScanner constMatcher [⟨".hidden", false, []⟩]
        (some ".hidden")).1
      = [(scan_skill sampleScanner constMatcher ⟨".hidden", []⟩).1] :=
  (scan_all_skills_target_mode sampleScanner constMatcher [⟨".hidden", false, []⟩]).1
    ".hidden" ⟨".hidden", false, []⟩ (by decide)
